import Mathlib

/-!
Verification of the `Output` base class in `acquire/outputs/base.py`.

The class is a polymorphic output-writer contract: one abstract primitive
`write` plus derived operations `write_entry`, `write_bytes`, `write_volatile`
and lifecycle hooks `init` / `close`.  We embed the methods as state-passing
functions parametrized over the abstract `write` primitive (a `WriteFn`), with
an explicit `Env` describing how the outside world answers `entry.open()` and
volatile reads, and a `WState` recording the observable effects (records
written by the concrete primitive, stream handles closed, whether `close` was
called).  Exceptions are modelled with `Except`; a method returns its outcome
paired with the state so that effects performed before a raise survive it,
exactly as in Python.
-/

namespace AcqOutput

/-- Byte buffers (Python `bytes`), as lists of byte values. -/
abbrev ByteBuf := List Nat

/-- Python exception kinds relevant to the write path.  `osError` and
`permissionError` model `OSError` and its subclass `PermissionError`;
`attributeError` models `AttributeError` (e.g. `None.path`);
`notImplementedError` models the `raise NotImplementedError()` of the abstract
base methods; `sourceUnavailable` models an open failure of an entry;
`writerClosed` and `writeFailure` model errors a concrete writer could raise. -/
inductive PyExc where
  | osError
  | permissionError
  | attributeError
  | notImplementedError
  | sourceUnavailable
  | writerClosed
  | writeFailure
deriving DecidableEq, Repr

/-- Whether an exception is caught by the clause `except (OSError,
PermissionError)` of `write_volatile`: `PermissionError` is a subclass of
`OSError`, and no other exception kind in the taxonomy is. -/
def PyExc.isOSError : PyExc → Bool
  | .osError => true
  | .permissionError => true
  | _ => false

/-- A filesystem-entry reference: carries the `path` attribute that
`write_volatile` resolves and that `entry.open()` reads from. -/
structure EntryRef where
  path : String
deriving DecidableEq, Repr

/-- The stream argument received by the abstract `write` primitive: either the
in-memory stream built by `io.BytesIO(data)` (case `buffer`, content carried
directly) or an open stream handle obtained from `entry.open()` (case
`handle`, identified by a handle id resolved through the environment). -/
inductive StreamV where
  | buffer (content : ByteBuf)
  | handle (id : Nat)
deriving DecidableEq, Repr

/-- One record produced by a concrete `write` implementation: the output path,
the stream content that was stored under it, and the entry and size arguments
forwarded to the primitive. -/
structure Record where
  path : String
  content : ByteBuf
  entry : Option EntryRef
  size : Option Nat
deriving DecidableEq, Repr

/-- Observable writer state: the records produced by the concrete primitive,
the stream handles that have been closed, and whether `close` was called. -/
structure WState where
  records : List Record
  closedHandles : List Nat
  closedCalled : Bool
deriving DecidableEq, Repr

/-- The state of a fresh writer: nothing written, nothing closed. -/
def initState : WState := ⟨[], [], false⟩

/-- The outside world.  `volRead p` is the outcome of
`VolatileStream(Path(p)).read()` (read-until-EOF, or an exception);
`openEntry p` is the outcome of `entry.open()` for the entry at path `p`,
yielding a stream-handle id; `handleContent h` is the content readable from
handle `h`. -/
structure Env where
  volRead : String → Except PyExc ByteBuf
  openEntry : String → Except PyExc Nat
  handleContent : Nat → ByteBuf

/-- Outcome of a Python call: normal return or raised exception. -/
abbrev PyResult (α : Type) := Except PyExc α

/-- The shape of the abstract `write` primitive: output path, stream, optional
entry, optional size, incoming state; result outcome paired with the new
state. -/
abbrev WriteFn :=
  String → StreamV → Option EntryRef → Option Nat → WState → PyResult Unit × WState

/-- Method `Output.init(self, target)`: the base implementation is `pass`. -/
def init {T : Type} (_target : T) (st : WState) : PyResult Unit × WState :=
  (Except.ok (), st)

/-- Method `Output.write(...)` of the abstract base: `raise NotImplementedError()`. -/
def write : WriteFn := fun _ _ _ _ st => (Except.error .notImplementedError, st)

/-- Method `Output.close(self)` of the abstract base: `raise NotImplementedError()`. -/
def close (st : WState) : PyResult Unit × WState :=
  (Except.error .notImplementedError, st)

/-- Exit of the `with entry.open() as fh:` block: the handle is closed. -/
def closeHandle (h : Nat) (st : WState) : WState :=
  { st with closedHandles := h :: st.closedHandles }

/-- Method `Output.write_entry(self, output_path, entry, size=None)`:

    with entry.open() as fh:
        self.write(output_path, fh, entry, size)

With `entry = None`, `entry.open()` raises `AttributeError`.  If `open()`
raises, the exception propagates and nothing else runs.  Otherwise the `with`
statement guarantees the handle is closed on every exit path, whether the
delegated `write` returns or raises. -/
def write_entry (w : WriteFn) (env : Env) (output_path : String)
    (entry : Option EntryRef) (size : Option Nat) (st : WState) :
    PyResult Unit × WState :=
  match entry with
  | none => (Except.error .attributeError, st)
  | some e =>
    match env.openEntry e.path with
    | Except.error exc => (Except.error exc, st)
    | Except.ok h =>
      let r := w output_path (StreamV.handle h) entry size st
      (r.1, closeHandle h r.2)

/-- Method `Output.write_bytes(self, output_path, data, entry, size=None)`:

    stream = io.BytesIO(data)
    self.write(output_path, stream, entry, size)

The buffer is wrapped in an in-memory stream and everything, the size
included, is forwarded to the primitive unchanged. -/
def write_bytes (w : WriteFn) (output_path : String) (data : ByteBuf)
    (entry : Option EntryRef) (size : Option Nat) (st : WState) :
    PyResult Unit × WState :=
  w output_path (StreamV.buffer data) entry size st

/-- Method `Output.write_volatile(self, output_path, entry, size=None)`:

    try:
        fh = acquire.utils.VolatileStream(Path(entry.path))
        buf = fh.read()
        size = size or len(buf)
    except (OSError, PermissionError):
        buf = b""
        size = 0
    self.write_bytes(output_path, buf, entry, size)

The attribute access `entry.path` happens inside the `try` block, so with
`entry = None` the raised `AttributeError` reaches the `except` clause but is
not caught by it.  Python `size or len(buf)` yields `len(buf)` when `size` is
`None` or `0`, and `size` itself otherwise. -/
def write_volatile (w : WriteFn) (env : Env) (output_path : String)
    (entry : Option EntryRef) (size : Option Nat) (st : WState) :
    PyResult Unit × WState :=
  let tryBlock : Except PyExc (ByteBuf × Nat) :=
    match entry with
    | none => Except.error .attributeError
    | some e =>
      match env.volRead e.path with
      | Except.error exc => Except.error exc
      | Except.ok buf =>
        Except.ok (buf, match size with
          | none => buf.length
          | some s => if s = 0 then buf.length else s)
  match tryBlock with
  | Except.ok (buf, sz) => write_bytes w output_path buf entry (some sz) st
  | Except.error exc =>
    if exc.isOSError then
      write_bytes w output_path [] entry (some 0) st
    else
      (Except.error exc, st)

/-- Content carried by a stream, resolving open handles through the
environment. -/
def streamContent (env : Env) : StreamV → ByteBuf
  | .buffer b => b
  | .handle h => env.handleContent h

/-- A minimal conforming concrete writer: its `write` primitive reads the whole
stream and appends one record, and never fails.  Instantiating the abstract
primitive with it makes the delegations of the base class observable. -/
def recWrite (env : Env) : WriteFn := fun p s entry size st =>
  (Except.ok (), { st with records := st.records ++ [⟨p, streamContent env s, entry, size⟩] })

/-- A concrete writer whose `write` primitive always raises (a destination
failure such as disk full). -/
def failWrite : WriteFn := fun _ _ _ _ st => (Except.error .writeFailure, st)

/-- A conforming concrete `close`: it records that close was called.  The base
class keeps no state of its own, so this is all a close can make observable
here. -/
def demoClose (st : WState) : WState := { st with closedCalled := true }

/-- A concrete environment whose volatile reads succeed with 3 bytes of
content and whose entry opens succeed with handle 7. -/
def env0 : Env :=
  { volRead := fun _ => Except.ok [10, 20, 30]
    openEntry := fun _ => Except.ok 7
    handleContent := fun _ => [1, 2] }

/-- A concrete environment whose volatile reads fail with `PermissionError`
and whose entry opens fail with a source-unavailable error. -/
def envErr : Env :=
  { volRead := fun _ => Except.error .permissionError
    openEntry := fun _ => Except.error .sourceUnavailable
    handleContent := fun _ => [] }

/-- C8: the default `init(target)` is a no-op: it returns `None` (modelled
as `Except.ok ()`), performs no write and leaves the writer state unchanged,
for every target and every state. -/
theorem init_is_noop {T : Type} (target : T) (st : WState) :
    init target st = (Except.ok (), st) := rfl

/-- C7: `write_bytes p data entry size` wraps `data` in an in-memory stream
whose content is exactly `data` and delegates to the abstract `write`
primitive under path `p` (first conjunct, for every primitive `w`).  It never
fails because of the data itself: with a recording concrete writer it returns
normally for every buffer, including the empty one, and the resulting record
at path `p` has content exactly `data`, hence recorded content size exactly
`data.length`. -/
theorem write_bytes_record_size (env : Env) (p : String) (data : ByteBuf)
    (entry : Option EntryRef) (size : Option Nat) (st : WState) :
    (∀ w : WriteFn, write_bytes w p data entry size st
        = w p (StreamV.buffer data) entry size st)
    ∧ (write_bytes (recWrite env) p data entry size st).1 = Except.ok ()
    ∧ (write_bytes (recWrite env) p data entry size st).2.records
        = st.records ++ [⟨p, data, entry, size⟩]
    ∧ ((write_bytes (recWrite env) p data entry size st).2.records.map
          fun r => r.content.length)
        = (st.records.map fun r => r.content.length) ++ [data.length] :=
  ⟨fun _ => rfl, rfl, rfl, by simp [write_bytes, recWrite, streamContent]⟩

/-- C10: `write_bytes` forwards its size argument to the abstract `write`
primitive unchanged (first conjunct, for every primitive and every size).  In
particular, when the caller omits the size hint the primitive receives `none`,
never `some data.length`: the base contract does not compute the size of a raw
buffer itself. -/
theorem write_bytes_forwards_size (env : Env) (w : WriteFn) (p : String)
    (data : ByteBuf) (entry : Option EntryRef) (size : Option Nat) (st : WState) :
    write_bytes w p data entry size st = w p (StreamV.buffer data) entry size st
    ∧ ((write_bytes (recWrite env) p data entry none st).2.records.map
          fun r => r.size)
        = (st.records.map fun r => r.size) ++ [none]
    ∧ (none : Option Nat) ≠ some data.length :=
  ⟨rfl, by simp [write_bytes, recWrite], by simp⟩

/-- C9: calling `write_volatile` with an absent entry (`entry = None`) raises
`AttributeError` at the access `entry.path`; that exception is not an OS-level
read failure, so the empty-buffer fallback does not catch it: the call raises
and the state is unchanged for every concrete primitive, so no record is
produced at the output path. -/
theorem write_volatile_none_entry (w : WriteFn) (env : Env) (p : String)
    (size : Option Nat) (st : WState) :
    write_volatile w env p none size st = (Except.error PyExc.attributeError, st)
    ∧ PyExc.attributeError.isOSError = false :=
  ⟨rfl, rfl⟩

/-- C2: on any OS-level read failure of the resolved path (here an arbitrary
exception caught by `except (OSError, PermissionError)`), `write_volatile`
does not propagate the error: it substitutes an empty buffer with size 0 and
still produces, via `write_bytes`, a record at the given output path with
empty content and size 0. -/
theorem write_volatile_oserror (env : Env) (p : String) (e : EntryRef)
    (size : Option Nat) (st : WState) (exc : PyExc)
    (hread : env.volRead e.path = Except.error exc)
    (hos : exc.isOSError = true) :
    (write_volatile (recWrite env) env p (some e) size st).1 = Except.ok ()
    ∧ (write_volatile (recWrite env) env p (some e) size st).2.records
        = st.records ++ [⟨p, [], some e, some 0⟩] := by
  constructor <;> simp [write_volatile, hread, hos, write_bytes, recWrite, streamContent]

/-- Witness for C2 at a concrete input: the volatile read raises
`PermissionError`, yet the call returns normally and records an empty artifact
of size 0 at the output path. -/
theorem write_volatile_oserror_witness :
    (write_volatile (recWrite envErr) envErr "proc/1/maps" (some ⟨"src"⟩) (some 5) initState).1
        = Except.ok ()
    ∧ (write_volatile (recWrite envErr) envErr "proc/1/maps" (some ⟨"src"⟩) (some 5) initState).2.records
        = initState.records ++ [⟨"proc/1/maps", [], some ⟨"src"⟩, some 0⟩] :=
  write_volatile_oserror envErr "proc/1/maps" ⟨"src"⟩ (some 5) initState
    PyExc.permissionError rfl rfl

/-- C3: whenever the volatile read either succeeds or fails with an OS-level
error, `write_volatile` returns normally and delegates exactly once to
`write_bytes`, hence exactly once to the concrete `write` primitive: exactly
one new record is appended, and its path is the given output path — the
output path is never silently skipped because of a read failure. -/
theorem write_volatile_one_record (env : Env) (p : String) (e : EntryRef)
    (size : Option Nat) (st : WState)
    (h : (∃ buf, env.volRead e.path = Except.ok buf)
        ∨ (∃ exc, env.volRead e.path = Except.error exc ∧ exc.isOSError = true)) :
    (write_volatile (recWrite env) env p (some e) size st).1 = Except.ok ()
    ∧ ∃ r : Record,
        (write_volatile (recWrite env) env p (some e) size st).2.records
          = st.records ++ [r]
        ∧ r.path = p := by
  rcases h with ⟨buf, hb⟩ | ⟨exc, he, hos⟩
  · refine ⟨?_, ⟨p, buf, some e,
      some (match size with
        | none => buf.length
        | some s => if s = 0 then buf.length else s)⟩, ?_, rfl⟩ <;>
      simp [write_volatile, hb, write_bytes, recWrite, streamContent]
  · refine ⟨?_, ⟨p, [], some e, some 0⟩, ?_, rfl⟩ <;>
      simp [write_volatile, he, hos, write_bytes, recWrite, streamContent]

/-- Witness for C3 at a concrete input on the success branch: exactly one
record, at the requested output path, is appended. -/
theorem write_volatile_one_record_witness :
    (write_volatile (recWrite env0) env0 "proc/stat" (some ⟨"src"⟩) none initState).1
        = Except.ok ()
    ∧ ∃ r : Record,
        (write_volatile (recWrite env0) env0 "proc/stat" (some ⟨"src"⟩) none initState).2.records
          = initState.records ++ [r]
        ∧ r.path = "proc/stat" :=
  write_volatile_one_record env0 "proc/stat" ⟨"src"⟩ none initState
    (Or.inl ⟨[10, 20, 30], rfl⟩)

/-- C4: when `entry.open()` succeeds with a stream handle, `write_entry`
closes that handle on every exit path: the conclusion holds for every concrete
`write` primitive `w`, whether it returns normally or raises, because the
`with` statement closes the handle unconditionally on block exit. -/
theorem write_entry_closes_handle (w : WriteFn) (env : Env) (p : String)
    (e : EntryRef) (size : Option Nat) (st : WState) (h : Nat)
    (hopen : env.openEntry e.path = Except.ok h) :
    h ∈ (write_entry w env p (some e) size st).2.closedHandles := by
  simp [write_entry, hopen, closeHandle]

/-- Witness for C4 at a concrete input, once with a concrete writer whose
`write` returns normally and once with one whose `write` raises: the handle is
observed closed in both cases. -/
theorem write_entry_closes_handle_witness :
    7 ∈ (write_entry (recWrite env0) env0 "etc/hosts" (some ⟨"src"⟩) none initState).2.closedHandles
    ∧ 7 ∈ (write_entry failWrite env0 "etc/hosts" (some ⟨"src"⟩) none initState).2.closedHandles :=
  ⟨write_entry_closes_handle (recWrite env0) env0 "etc/hosts" ⟨"src"⟩ none initState 7 rfl,
   write_entry_closes_handle failWrite env0 "etc/hosts" ⟨"src"⟩ none initState 7 rfl⟩

/-- C5: when `entry.open()` raises, `write_entry` propagates that exception
unchanged and leaves the state unchanged, for every concrete `write`
primitive: the failure is not swallowed, no empty-buffer record is
substituted, and the write primitive is never invoked (the result does not
depend on `w` at all). -/
theorem write_entry_open_failure (w : WriteFn) (env : Env) (p : String)
    (e : EntryRef) (size : Option Nat) (st : WState) (exc : PyExc)
    (hopen : env.openEntry e.path = Except.error exc) :
    write_entry w env p (some e) size st = (Except.error exc, st) := by
  simp [write_entry, hopen]

/-- Witness for C5 at a concrete input: `open()` raises a source-unavailable
error and `write_entry` with a recording writer propagates it with no record
produced. -/
theorem write_entry_open_failure_witness :
    write_entry (recWrite envErr) envErr "var/log/syslog" (some ⟨"src"⟩) none initState
      = (Except.error PyExc.sourceUnavailable, initState) :=
  write_entry_open_failure (recWrite envErr) envErr "var/log/syslog" ⟨"src"⟩ none
    initState PyExc.sourceUnavailable rfl

/-- C1 as stated is false on the code: a readable volatile source with actual
content `[10, 20, 30]` (actual length L = 3) and caller-supplied hint S = 5
(so L ≠ S) produces a record whose size is `some 5` — the hint S, not the
actual length L — because `size = size or len(buf)` keeps any truthy hint. -/
theorem write_volatile_hint_counterexample :
    (write_volatile (recWrite env0) env0 "out" (some ⟨"src"⟩) (some 5) initState).2.records
        = [⟨"out", [10, 20, 30], some ⟨"src"⟩, some 5⟩]
    ∧ ([10, 20, 30] : ByteBuf).length = 3
    ∧ (5 : Nat) ≠ 3
    ∧ ¬ ((write_volatile (recWrite env0) env0 "out" (some ⟨"src"⟩) (some 5) initState).2.records.map
          fun r => r.size) = [some 3] := by
  refine ⟨rfl, rfl, by decide, ?_⟩
  decide

/-- C1 amended: on a successful volatile read, the size passed on to
`write_bytes` is the actual number of bytes read only when the caller-supplied
hint is absent (`None`) or zero; a nonzero caller-supplied hint `s` is passed
through unchanged, even when it differs from the actual length. -/
theorem write_volatile_size_amended (env : Env) (p : String) (e : EntryRef)
    (st : WState) (buf : ByteBuf)
    (hread : env.volRead e.path = Except.ok buf) :
    ((write_volatile (recWrite env) env p (some e) none st).2.records.map
        fun r => r.size)
      = (st.records.map fun r => r.size) ++ [some buf.length]
    ∧ ((write_volatile (recWrite env) env p (some e) (some 0) st).2.records.map
        fun r => r.size)
      = (st.records.map fun r => r.size) ++ [some buf.length]
    ∧ ∀ s : Nat, s ≠ 0 →
        ((write_volatile (recWrite env) env p (some e) (some s) st).2.records.map
            fun r => r.size)
          = (st.records.map fun r => r.size) ++ [some s] := by
  refine ⟨?_, ?_, ?_⟩
  · simp [write_volatile, hread, write_bytes, recWrite, streamContent]
  · simp [write_volatile, hread, write_bytes, recWrite, streamContent]
  · intro s hs
    simp [write_volatile, hread, write_bytes, recWrite, streamContent, hs]

/-- Witness for the amended C1 at a concrete input: with no hint the actual
length 3 is recorded; with the nonzero hint 5 the hint itself is recorded. -/
theorem write_volatile_size_amended_witness :
    ((write_volatile (recWrite env0) env0 "out" (some ⟨"src"⟩) none initState).2.records.map
        fun r => r.size)
      = (initState.records.map fun r => r.size) ++ [some ([10, 20, 30] : ByteBuf).length]
    ∧ ((write_volatile (recWrite env0) env0 "out" (some ⟨"src"⟩) (some 5) initState).2.records.map
        fun r => r.size)
      = (initState.records.map fun r => r.size) ++ [some 5] :=
  ⟨(write_volatile_size_amended env0 "out" ⟨"src"⟩ initState [10, 20, 30] rfl).1,
   (write_volatile_size_amended env0 "out" ⟨"src"⟩ initState [10, 20, 30] rfl).2.2
      5 (by decide)⟩

/-- C6 as stated is false on the code: the base class tracks no closed state
and performs no closed-state check in any write operation, and no
writer-closed error exists in the source.  Concretely, after `close` has been
called (modelled by a conforming concrete close that marks the state closed),
`write_bytes` on a conforming concrete writer still returns normally — not a
writer-closed error — and still records the artifact; and even the abstract
base `write` after close raises `NotImplementedError`, not a writer-closed
error. -/
theorem post_close_write_counterexample :
    (demoClose initState).closedCalled = true
    ∧ (write_bytes (recWrite env0) "a/b.txt" [104, 105] none none (demoClose initState)).1
        = Except.ok ()
    ∧ (write_bytes (recWrite env0) "a/b.txt" [104, 105] none none (demoClose initState)).1
        ≠ Except.error PyExc.writerClosed
    ∧ (write_bytes (recWrite env0) "a/b.txt" [104, 105] none none (demoClose initState)).2.records.length
        = 1
    ∧ (write_bytes write "a/b.txt" [104, 105] none none (demoClose initState)).1
        = Except.error PyExc.notImplementedError := by
  refine ⟨rfl, rfl, ?_, rfl, rfl⟩
  simp [write_bytes, recWrite]

/-- C6 amended: the base contract does not intercept writes after `close`;
post-close behaviour is writer-defined.  Even in a state where close has been
called, `write_bytes` with a concrete writer that accepts writes still returns
normally and records the artifact. -/
theorem post_close_write_not_rejected (env : Env) (p : String) (data : ByteBuf)
    (entry : Option EntryRef) (size : Option Nat) (st : WState)
    (_hclosed : st.closedCalled = true) :
    (write_bytes (recWrite env) p data entry size st).1 = Except.ok ()
    ∧ (write_bytes (recWrite env) p data entry size st).2.records
        = st.records ++ [⟨p, data, entry, size⟩] :=
  ⟨rfl, rfl⟩

/-- Witness for the amended C6 at a concrete input: in the closed state, a
write still succeeds and appends its record. -/
theorem post_close_write_not_rejected_witness :
    (write_bytes (recWrite env0) "a/b.txt" [104, 105] none none (demoClose initState)).1
        = Except.ok ()
    ∧ (write_bytes (recWrite env0) "a/b.txt" [104, 105] none none (demoClose initState)).2.records
        = (demoClose initState).records ++ [⟨"a/b.txt", [104, 105], none, none⟩] :=
  post_close_write_not_rejected env0 "a/b.txt" [104, 105] none none
    (demoClose initState) rfl

end AcqOutput
